import Mathlib

/-!
# Verification of the skill-to-actuation compilation pipeline

Shallow embedding of the Python backend (`src/backend/src`) of the htn2025
repository: the skill compiler (`services/compiler.py`), the data model
(`core/models.py`), the deterministic servo-planning fallback and the lenient
JSON response parser (`services/llm_agent.py`), and the minimal servo sequence
synthesizer (`services/robot_controller.py`).

Python floats are modelled as exact rationals; Python `int(x)` (truncation
toward zero) is `pyTrunc`, Python 3 `round` (banker's rounding, half to even)
is `pyRound`, Python `//` (floor division) is `Int.fdiv`.
-/

namespace HTN

/-- Python `int(q)` for a float `q`: truncation toward zero. -/
def pyTrunc (q : ℚ) : ℤ :=
  if q < 0 then -(Int.floor (-q)) else Int.floor q

/-- Python 3 `round(q)` with one argument: round half to even. -/
def pyRound (q : ℚ) : ℤ :=
  let f := Int.floor q
  let r := q - (f : ℚ)
  if r < 1/2 then f
  else if (1:ℚ)/2 < r then f + 1
  else if f % 2 = 0 then f else f + 1

/-- Python `str.lower()` (ASCII case folding suffices for this code base). -/
def pyLower (s : String) : String := String.mk (s.data.map Char.toLower)

/-- Boolean: `pre` is a prefix of `l` (character lists). -/
def listIsPfx : List Char → List Char → Bool
  | [], _ => true
  | _ :: _, [] => false
  | a :: as, b :: bs => a == b && listIsPfx as bs

/-- Boolean: `needle` occurs as a contiguous sublist of `hay`. -/
def listHasSub (hay needle : List Char) : Bool :=
  match hay with
  | [] => listIsPfx needle []
  | _ :: t => listIsPfx needle hay || listHasSub t needle

/-- Python `needle in hay` for strings (substring test). -/
def strIn (needle hay : String) : Bool := listHasSub hay.data needle.data

/-- Python `s.startswith(pat)`. -/
def strStarts (s pat : String) : Bool := listIsPfx pat.data s.data

/-- Python `s.endswith(pat)`. -/
def strEnds (s pat : String) : Bool := listIsPfx pat.data.reverse s.data.reverse

/-- Python `s[n:]`. -/
def strDropLeft (s : String) (n : Nat) : String := String.mk (s.data.drop n)

/-- Python `s[:-n]`. -/
def strDropRight (s : String) (n : Nat) : String :=
  String.mk ((s.data.reverse.drop n).reverse)

/-- `List.map` with the element index, used to embed `for i, x in enumerate(l)`. -/
def mapWithIndex (f : Nat → α → β) : Nat → List α → List β
  | _, [] => []
  | i, a :: as => f i a :: mapWithIndex f (i + 1) as

/-! ## Data model (`core/models.py`) -/

/-- `SkillDomain` enum. -/
inductive SkillDomain where
  | martial_arts | sports | music | crafts | general
deriving DecidableEq

/-- `SkillStep` dataclass (fields used by the compiler). -/
structure SkillStep where
  name : String
  how : String
  why : String
  cues : Option String
  common_mistakes : Option (List String)
  citations : List ℤ
  difficulty_level : ℤ
deriving DecidableEq

/-- `SkillGuide` dataclass (payload dicts such as `sources` are opaque strings). -/
structure SkillGuide where
  query : String
  title : String
  domain : SkillDomain
  prerequisites : List String
  safety : List String
  equipment : List String
  core_principles : List String
  steps : List SkillStep
  evaluation : List String
  sources : List String
  difficulty_rating : ℤ
deriving DecidableEq

/-- `ExecutionPhase` dataclass. -/
structure ExecutionPhase where
  name : String
  duration_ms : ℤ
  cue : String
  pose_hints : String
  rationale : String
  citations : List ℤ
  velocity_profile : Option String
  force_profile : Option String
deriving DecidableEq

/-- `PhysicalConstraints` dataclass (dicts as association lists). -/
structure PhysicalConstraints where
  max_velocity_hint : ℚ
  keep_com_in_base : Bool
  workspace_hint : String
  joint_limits : List (String × ℚ)
  safety_margins : List (String × ℚ)
deriving DecidableEq

/-- `ExecutionPlan` dataclass. -/
structure ExecutionPlan where
  skill_name : String
  phases : List ExecutionPhase
  constraints : PhysicalConstraints
  provenance : List String
  total_duration_ms : ℤ
  complexity_score : ℚ
deriving DecidableEq

/-- `ExecutionPlan(...)` construction including `__post_init__`: the supplied
`total_duration_ms` and `complexity_score` arguments are overwritten by the
derived values `sum(phase.duration_ms)` and
`len(phases) * 0.2 + (total_duration_ms / 1000) * 0.1`. -/
def mkExecutionPlan (skill_name : String) (phases : List ExecutionPhase)
    (constraints : PhysicalConstraints) (provenance : List String)
    (total0 : ℤ) (complexity0 : ℚ) : ExecutionPlan :=
  let _ := total0
  let _ := complexity0
  let total := (phases.map (fun p => p.duration_ms)).sum
  { skill_name := skill_name
    phases := phases
    constraints := constraints
    provenance := provenance
    total_duration_ms := total
    complexity_score := (phases.length : ℚ) * (2/10) + ((total : ℚ) / 1000) * (1/10) }

/-! ## PhaseMapper (`services/compiler.py`) -/

/-- One entry of `DOMAIN_PHASE_MAPPINGS`. -/
structure PhaseTemplate where
  duration : ℤ
  velocity : String
  force : String
deriving DecidableEq

/-- `DOMAIN_PHASE_MAPPINGS[MARTIAL_ARTS]`, in dict insertion order. -/
def martialArtsMappings : List (String × PhaseTemplate) :=
  [("setup", ⟨600, "slow", "minimal"⟩),
   ("stance", ⟨400, "slow", "controlled"⟩),
   ("preload", ⟨300, "slow", "building"⟩),
   ("preparation", ⟨500, "slow", "minimal"⟩),
   ("strike", ⟨120, "explosive", "maximum"⟩),
   ("punch", ⟨150, "explosive", "maximum"⟩),
   ("kick", ⟨200, "explosive", "maximum"⟩),
   ("block", ⟨180, "fast", "controlled"⟩),
   ("retract", ⟨300, "fast", "minimal"⟩),
   ("recovery", ⟨400, "slow", "minimal"⟩),
   ("reset", ⟨350, "slow", "minimal"⟩)]

/-- `DOMAIN_PHASE_MAPPINGS[SPORTS]`. -/
def sportsMappings : List (String × PhaseTemplate) :=
  [("setup", ⟨800, "slow", "minimal"⟩),
   ("preparation", ⟨600, "slow", "controlled"⟩),
   ("execution", ⟨300, "fast", "controlled"⟩),
   ("follow_through", ⟨400, "medium", "controlled"⟩),
   ("recovery", ⟨500, "slow", "minimal"⟩)]

/-- `DOMAIN_PHASE_MAPPINGS[MUSIC]`. -/
def musicMappings : List (String × PhaseTemplate) :=
  [("preparation", ⟨1000, "slow", "minimal"⟩),
   ("attack", ⟨100, "precise", "controlled"⟩),
   ("sustain", ⟨2000, "steady", "controlled"⟩),
   ("release", ⟨200, "slow", "minimal"⟩)]

/-- `DOMAIN_PHASE_MAPPINGS.get(domain, DOMAIN_PHASE_MAPPINGS[MARTIAL_ARTS])`. -/
def domainPhaseMappings : SkillDomain → List (String × PhaseTemplate)
  | .martial_arts => martialArtsMappings
  | .sports => sportsMappings
  | .music => musicMappings
  | .crafts => martialArtsMappings
  | .general => martialArtsMappings

/-- First template whose key is a substring of the lowercased step name. -/
def findTemplate (stepNameLower : String) :
    List (String × PhaseTemplate) → Option PhaseTemplate
  | [] => none
  | (k, t) :: rest =>
    if strIn k stepNameLower then some t else findTemplate stepNameLower rest

/-- The default fallback template `{"duration": 500, "velocity": "medium",
"force": "controlled"}`. -/
def defaultTemplate : PhaseTemplate := ⟨500, "medium", "controlled"⟩

/-- `PhaseMapper._generate_cue`: cue lookup table keyed by (velocity, force). -/
def cueTable : List ((String × String) × String) :=
  [(("slow", "minimal"), "relax and position"),
   (("slow", "controlled"), "steady and controlled"),
   (("medium", "controlled"), "smooth execution"),
   (("fast", "controlled"), "quick but precise"),
   (("explosive", "maximum"), "explosive power"),
   (("precise", "controlled"), "focus on accuracy")]

/-- `PhaseMapper._generate_cue`: explicit step cue if truthy, else the
(velocity, force) table, else the generic string. -/
def generateCue (step : SkillStep) (t : PhaseTemplate) : String :=
  match step.cues with
  | some c => if c = "" then (cueTable.lookup (t.velocity, t.force)).getD "execute with control" else c
  | none => (cueTable.lookup (t.velocity, t.force)).getD "execute with control"

/-- `PhaseMapper.map_step_to_phase`. -/
def map_step_to_phase (step : SkillStep) (domain : SkillDomain) : ExecutionPhase :=
  let step_name_lower := pyLower step.name
  let t := (findTemplate step_name_lower (domainPhaseMappings domain)).getD defaultTemplate
  let difficulty := step.difficulty_level
  let duration_multiplier : ℚ := 1 + ((difficulty : ℚ) - 1) * (2/10)
  let adjusted_duration := pyTrunc ((t.duration : ℚ) * duration_multiplier)
  { name := String.mk (step_name_lower.data.map (fun c => if c = ' ' then '_' else c))
    duration_ms := adjusted_duration
    cue := generateCue step t
    pose_hints := step.how
    rationale := step.why
    citations := step.citations
    velocity_profile := some t.velocity
    force_profile := some t.force }

/-! ## ConstraintGenerator (`services/compiler.py`) -/

/-- `DOMAIN_CONSTRAINTS[MARTIAL_ARTS]`. -/
def martialArtsConstraints : PhysicalConstraints :=
  { max_velocity_hint := 9/10
    keep_com_in_base := true
    workspace_hint := "short to medium range combat movements"
    joint_limits := [("shoulder_flexion", 180), ("elbow_extension", 170),
                     ("hip_flexion", 120), ("knee_flexion", 135)]
    safety_margins := [("impact_force", 8/10), ("joint_stress", 7/10),
                       ("balance_threshold", 9/10)] }

/-- `DOMAIN_CONSTRAINTS[SPORTS]`. -/
def sportsConstraints : PhysicalConstraints :=
  { max_velocity_hint := 85/100
    keep_com_in_base := true
    workspace_hint := "sport-specific movement patterns"
    joint_limits := [("shoulder_flexion", 170), ("elbow_extension", 160),
                     ("hip_flexion", 110), ("knee_flexion", 130)]
    safety_margins := [("impact_force", 75/100), ("joint_stress", 8/10),
                       ("balance_threshold", 85/100)] }

/-- `DOMAIN_CONSTRAINTS[MUSIC]`. -/
def musicConstraints : PhysicalConstraints :=
  { max_velocity_hint := 6/10
    keep_com_in_base := true
    workspace_hint := "fine motor control and precision"
    joint_limits := [("wrist_flexion", 80), ("finger_flexion", 90),
                     ("shoulder_flexion", 45)]
    safety_margins := [("repetitive_strain", 6/10), ("joint_stress", 9/10),
                       ("fatigue_threshold", 7/10)] }

/-- `DOMAIN_CONSTRAINTS.get(domain, DOMAIN_CONSTRAINTS[MARTIAL_ARTS])`. -/
def domainConstraintBase : SkillDomain → PhysicalConstraints
  | .martial_arts => martialArtsConstraints
  | .sports => sportsConstraints
  | .music => musicConstraints
  | .crafts => martialArtsConstraints
  | .general => martialArtsConstraints

/-- `ConstraintGenerator.generate_constraints`. -/
def generate_constraints (domain : SkillDomain) (complexity_score : ℚ) :
    PhysicalConstraints :=
  let base := domainConstraintBase domain
  let complexity_factor := min 1 (complexity_score / 10)
  let max_velocity := base.max_velocity_hint * (1 - complexity_factor * (2/10))
  let safety_margins := base.safety_margins.map
    (fun kv => (kv.1, max (1/2) (kv.2 - complexity_factor * (1/10))))
  { max_velocity_hint := max_velocity
    keep_com_in_base := base.keep_com_in_base
    workspace_hint := base.workspace_hint
    joint_limits := base.joint_limits
    safety_margins := safety_margins }

/-! ## SkillCompiler (`services/compiler.py`) -/

/-- The per-domain additive constant of `_calculate_complexity_score`
(`domain_complexity.get(guide.domain, 0.5)`). -/
def domainComplexity : SkillDomain → ℚ
  | .martial_arts => 12/10
  | .sports => 1
  | .music => 8/10
  | .crafts => 6/10
  | .general => 5/10

/-- `SkillCompiler._calculate_complexity_score`:
`len(steps) * 0.5 + (sum(difficulty) / len(steps)) * 0.8 + domain_score`. -/
def calculate_complexity_score (guide : SkillGuide) : ℚ :=
  let base_score := (guide.steps.length : ℚ) * (5/10)
  let avg_difficulty :=
    ((guide.steps.map (fun s => (s.difficulty_level : ℚ))).sum) / (guide.steps.length : ℚ)
  let difficulty_score := avg_difficulty * (8/10)
  base_score + difficulty_score + domainComplexity guide.domain

/-- The body of the `_optimize_phase_timing` loop for index `i`: the
neighbor-before check assigns `int(duration * 1.2)` from the original
duration, then the neighbor-after check assigns `int(duration * 0.9)` from
the original duration (overwriting the first assignment when both fire).
Neighbors are read from the original input list. -/
def optimizeOne (phases : List ExecutionPhase) (i : Nat) (p : ExecutionPhase) :
    ExecutionPhase :=
  let d0 := p.duration_ms
  let d1 :=
    if 0 < i then
      match phases[i - 1]? with
      | some prev =>
        if prev.velocity_profile = some "explosive" ∧ p.velocity_profile = some "slow"
        then pyTrunc ((d0 : ℚ) * (12/10)) else d0
      | none => d0
    else d0
  let d2 :=
    if i < phases.length - 1 then
      match phases[i + 1]? with
      | some next =>
        if p.velocity_profile = some "slow" ∧ next.velocity_profile = some "explosive"
        then pyTrunc ((d0 : ℚ) * (9/10)) else d1
      | none => d1
    else d1
  { p with duration_ms := d2 }

/-- `SkillCompiler._optimize_phase_timing`. -/
def optimize_phase_timing (phases : List ExecutionPhase) : List ExecutionPhase :=
  if phases.length < 2 then phases
  else mapWithIndex (fun i p => optimizeOne phases i p) 0 phases

/-- `SkillCompiler.compile_skill_guide`: raises `CompilationError` iff the
guide has no steps (modelled as `Except.error`); otherwise assembles the plan. -/
def compile_skill_guide (guide : SkillGuide) : Except String ExecutionPlan :=
  if guide.steps = [] then
    Except.error "Cannot compile guide with no steps"
  else
    let complexity_score := calculate_complexity_score guide
    let phases := guide.steps.map (fun s => map_step_to_phase s guide.domain)
    let phases := optimize_phase_timing phases
    let constraints := generate_constraints guide.domain complexity_score
    Except.ok (mkExecutionPlan guide.title phases constraints guide.sources 0 complexity_score)

/-! ## TargetCalculator (`services/robot_controller.py`, `_calculate_3d_targets`) -/

/-- A 3D end-effector target: position (m) plus orientation (rad). -/
structure Target3D where
  x : ℚ
  y : ℚ
  z : ℚ
  roll : ℚ
  pitch : ℚ
  yaw : ℚ
deriving DecidableEq

/-- `RobotControlGenerator._calculate_3d_targets`. -/
def calculate_3d_targets (phase : ExecutionPhase) : Target3D × Target3D :=
  let left_base : Target3D := ⟨3/10, 2/10, 12/10, 0, 0, 0⟩
  let right_base : Target3D := ⟨3/10, -2/10, 12/10, 0, 0, 0⟩
  if strIn "uppercut" (pyLower phase.name) then
    (⟨left_base.x + 2/10, left_base.y, left_base.z + 3/10, 2/10, -3/10, 1/10⟩,
     ⟨right_base.x + 4/10, right_base.y, right_base.z + 4/10, -2/10, -4/10, -1/10⟩)
  else if strIn "footwork" (pyLower phase.name) then
    (⟨left_base.x - 1/10, left_base.y + 1/10, left_base.z + 1/10, 1/10, 1/10, 2/10⟩,
     ⟨right_base.x, right_base.y - 1/10, right_base.z + 1/10, -1/10, 1/10, -2/10⟩)
  else
    (left_base, right_base)

/-! ## Deterministic fallback servo planner (`services/llm_agent.py`,
`CohereServoPlanner._fallback_plan`) -/

/-- `CohereServoPlanner._clamp`: `max(0, min(180, int(round(float(v)))))`. -/
def clampAngle (v : ℚ) : ℤ := max 0 (min 180 (pyRound v))

/-- Python `(opt or default)` for optional strings: `None` and `""` are falsy. -/
def orDefault (o : Option String) (d : String) : String :=
  match o with
  | none => d
  | some s => if s = "" then d else s

/-- Role inference of `_fallback_plan`: returns `(left_active, right_active)`
from side keywords in the lowercased phase name and cue. -/
def inferRoles (phase : ExecutionPhase) : Bool × Bool :=
  let name := pyLower phase.name
  let cue := pyLower phase.cue
  let has := fun (k : String) => strIn k name || strIn k cue
  if has "left" || has "jab (left)" then (true, false)
  else if has "right" || has "cross" || has "jab (right)" then (false, true)
  else if has "uppercut" || has "hook" || has "punch" then (false, true)
  else (false, false)

/-- The velocity/force power multiplier of `_fallback_plan`:
`1.2` if velocity is explosive or fast, or force is maximum; `0.9` if
velocity is slow and force is minimal; else `1.0`. -/
def powerScale (velocity_profile force_profile : Option String) : ℚ :=
  let vel := pyLower (orDefault velocity_profile "medium")
  let force := pyLower (orDefault force_profile "controlled")
  if vel = "explosive" ∨ vel = "fast" ∨ force = "maximum" then 12/10
  else if vel = "slow" ∧ force = "minimal" then 9/10
  else 1

/-- Integer joint angles of one arm (3 DOF). -/
structure ArmAngles where
  shoulder_vertical : ℤ
  shoulder_horizontal : ℤ
  elbow_vertical : ℤ
deriving DecidableEq

/-- `map_arm` inside `_fallback_plan`: per-arm reduction from a 3D target to
3-DOF angles with active/inactive handling (`isLeft = true` for side "left"). -/
def mapArm (tgt : Target3D) (isLeft : Bool) (active : Bool) (power_scale : ℚ) :
    ArmAngles :=
  let z := tgt.z
  let y := tgt.y
  let x := tgt.x
  let shoulder_v := clampAngle (90 + (z - 12/10) * 200 * (if active then 11/10 else 9/10))
  let shoulder_h :=
    if isLeft then clampAngle (90 - y * 300) else clampAngle (90 + (-y) * 300)
  let elbow_v := clampAngle (120 - (x - 3/10) * 300 * (if active then 12/10 else 8/10))
  if active then
    { shoulder_vertical := clampAngle ((shoulder_v : ℚ) * power_scale)
      shoulder_horizontal := shoulder_h
      elbow_vertical := clampAngle ((elbow_v - pyRound ((power_scale - 1) * 10) : ℤ) : ℚ) }
  else
    { shoulder_vertical := shoulder_v
      shoulder_horizontal := clampAngle (((shoulder_h + (if isLeft then 60 else 120)).fdiv 2 : ℤ) : ℚ)
      elbow_vertical := clampAngle (((elbow_v + 110).fdiv 2 : ℤ) : ℚ) }

/-- `CohereServoPlanner._fallback_plan` (angles only; the reasoning strings do
not affect any claim): returns `(left_arm, right_arm)`. -/
def fallback_plan (phase : ExecutionPhase) (left_target right_target : Target3D) :
    ArmAngles × ArmAngles :=
  let roles := inferRoles phase
  let left_active := roles.1
  let right_active := roles.2
  let power_scale := powerScale phase.velocity_profile phase.force_profile
  (mapArm left_target true (left_active && !right_active) power_scale,
   mapArm right_target false (right_active && !left_active) power_scale)

/-! ## SequenceSynthesizer
(`services/robot_controller.py`, `generate_minimal_servo_sequence`) -/

/-- One oracle waypoint: the six per-joint values as delivered by the servo
planner (remote or fallback), before clamping. -/
structure ArmPose where
  shoulder_vertical : ℚ
  shoulder_horizontal : ℚ
  elbow_vertical : ℚ
deriving DecidableEq

/-- A waypoint of a planned trajectory. -/
structure Waypoint where
  left_arm : ArmPose
  right_arm : ArmPose
deriving DecidableEq

/-- The six joints of the two-arm, 3-DOF-per-arm upper body. -/
inductive Joint where
  | left_shoulder_vertical | left_shoulder_horizontal | left_elbow_vertical
  | right_shoulder_vertical | right_shoulder_horizontal | right_elbow_vertical
deriving DecidableEq

/-- The six integer joint angles of one emitted command group (the `last_angles`
state has the same shape). -/
structure JointAngles where
  left_shoulder_vertical : ℤ
  left_shoulder_horizontal : ℤ
  left_elbow_vertical : ℤ
  right_shoulder_vertical : ℤ
  right_shoulder_horizontal : ℤ
  right_elbow_vertical : ℤ
deriving DecidableEq

/-- Projection of a `JointAngles` record at a joint. -/
def JointAngles.deg (g : JointAngles) : Joint → ℤ
  | .left_shoulder_vertical => g.left_shoulder_vertical
  | .left_shoulder_horizontal => g.left_shoulder_horizontal
  | .left_elbow_vertical => g.left_elbow_vertical
  | .right_shoulder_vertical => g.right_shoulder_vertical
  | .right_shoulder_horizontal => g.right_shoulder_horizontal
  | .right_elbow_vertical => g.right_elbow_vertical

/-- One emitted command group: sequence number plus the six absolute angles. -/
structure CommandGroup where
  seq_num : Nat
  commands : JointAngles
deriving DecidableEq

/-- The initial `last_angles` state: 90 for every joint. -/
def neutralAngles : JointAngles := ⟨90, 90, 90, 90, 90, 90⟩

/-- `clamp_int` applied to each of the six waypoint values (the `raw` dict). -/
def rawOf (wp : Waypoint) : JointAngles :=
  { left_shoulder_vertical := clampAngle wp.left_arm.shoulder_vertical
    left_shoulder_horizontal := clampAngle wp.left_arm.shoulder_horizontal
    left_elbow_vertical := clampAngle wp.left_arm.elbow_vertical
    right_shoulder_vertical := clampAngle wp.right_arm.shoulder_vertical
    right_shoulder_horizontal := clampAngle wp.right_arm.shoulder_horizontal
    right_elbow_vertical := clampAngle wp.right_arm.elbow_vertical }

/-- `smooth`: limit the per-step change from `prev` to `target` to `±max_delta`. -/
def smooth (max_delta target prev : ℤ) : ℤ :=
  if target > prev + max_delta then prev + max_delta
  else if target < prev - max_delta then prev - max_delta
  else target

/-- The `smoothed` dict: `smooth` applied per joint against the carried state. -/
def smoothAngles (max_delta : ℤ) (prev raw : JointAngles) : JointAngles :=
  { left_shoulder_vertical := smooth max_delta raw.left_shoulder_vertical prev.left_shoulder_vertical
    left_shoulder_horizontal := smooth max_delta raw.left_shoulder_horizontal prev.left_shoulder_horizontal
    left_elbow_vertical := smooth max_delta raw.left_elbow_vertical prev.left_elbow_vertical
    right_shoulder_vertical := smooth max_delta raw.right_shoulder_vertical prev.right_shoulder_vertical
    right_shoulder_horizontal := smooth max_delta raw.right_shoulder_horizontal prev.right_shoulder_horizontal
    right_elbow_vertical := smooth max_delta raw.right_elbow_vertical prev.right_elbow_vertical }

/-- The per-sequence rate limit:
`mv = constraints.max_velocity_hint or 0.8` (falsy values replaced by 0.8),
`max_delta = int(10 + (max(0.0, min(1.0, mv)) * 35))`. -/
def max_delta_of (c : PhysicalConstraints) : ℤ :=
  let mv := if c.max_velocity_hint = 0 then 8/10 else c.max_velocity_hint
  pyTrunc (10 + (max 0 (min 1 mv)) * 35)

/-- The waypoint loop of `generate_minimal_servo_sequence`: threads the
`last_angles` state and the sequence counter through consecutive waypoints,
emitting one command group per waypoint. -/
def synthFrom (max_delta : ℤ) (prev : JointAngles) (seq : Nat) :
    List Waypoint → List CommandGroup
  | [] => []
  | wp :: rest =>
    let smoothed := smoothAngles max_delta prev (rawOf wp)
    ⟨seq, smoothed⟩ :: synthFrom max_delta smoothed (seq + 1) rest

/-- `RobotControlGenerator.generate_minimal_servo_sequence`. The planner call
per phase is abstracted as `oracle` (either the remote planner's sanitized
waypoints or `_fallback_trajectory`). The nested `for phase / for wp` loops
thread one mutable `last_angles` and `seq_counter` through all waypoints,
which equals processing the concatenated per-phase waypoint streams. -/
def generate_minimal_servo_sequence (plan : ExecutionPlan)
    (oracle : ExecutionPhase → List Waypoint) : String × List CommandGroup :=
  let max_delta := max_delta_of plan.constraints
  (plan.skill_name, synthFrom max_delta neutralAngles 1 (plan.phases.map oracle).flatten)

/-! ## Lenient JSON parsing (`services/llm_agent.py`, `parse_lenient_json`)

`json.loads` is modelled by a strict recursive-descent JSON parser over
character lists (objects, arrays, strings with the common escapes, integers,
booleans, null; `\uXXXX` escapes and fractional/exponent numbers are outside
the model — no oracle response relevant to the claims uses them). The regex
replacement passes are modelled character by character with the same
leftmost, non-overlapping semantics. -/

/-- The opening brace character. -/
def braceOpen : Char := Char.ofNat 123

/-- The closing brace character. -/
def braceClose : Char := Char.ofNat 125

/-- The single-quote character. -/
def squote : Char := Char.ofNat 39

/-- JSON values as produced by `json.loads` (dicts as association lists). -/
inductive JVal where
  | jnull : JVal
  | jbool : Bool → JVal
  | jnum : ℤ → JVal
  | jstr : String → JVal
  | jarr : List JVal → JVal
  | jobj : List (String × JVal) → JVal

/-- JSON whitespace accepted by `json.loads` between tokens. -/
def isJsonWs (c : Char) : Bool :=
  c == ' ' || c == '\t' || c == '\n' || c == '\r'

/-- Python regex `\s` (and `str.strip` whitespace) for ASCII text. -/
def isReWs (c : Char) : Bool :=
  c == ' ' || c == '\t' || c == '\n' || c == '\r' ||
  c == Char.ofNat 11 || c == Char.ofNat 12

/-- Drop leading JSON whitespace. -/
def skipWs : List Char → List Char
  | [] => []
  | c :: rest => if isJsonWs c then skipWs rest else c :: rest

/-- Parse the body of a double-quoted JSON string (after the opening quote),
returning the content and the remainder after the closing quote. -/
def parseStrChars : List Char → Option (List Char × List Char)
  | [] => none
  | c :: rest =>
    if c == '"' then some ([], rest)
    else if c == '\\' then
      match rest with
      | [] => none
      | e :: rest2 =>
        let ec : Option Char :=
          if e == '"' then some '"'
          else if e == '\\' then some '\\'
          else if e == '/' then some '/'
          else if e == 'n' then some '\n'
          else if e == 't' then some '\t'
          else if e == 'r' then some '\r'
          else if e == 'b' then some (Char.ofNat 8)
          else if e == 'f' then some (Char.ofNat 12)
          else none
        match ec with
        | none => none
        | some ech => (parseStrChars rest2).map (fun p => (ech :: p.1, p.2))
    else if c.toNat < 32 then none
    else (parseStrChars rest).map (fun p => (c :: p.1, p.2))

/-- Split a maximal run of leading decimal digits. -/
def takeDigits : List Char → List Char × List Char
  | [] => ([], [])
  | c :: rest =>
    if c.isDigit then
      let p := takeDigits rest
      (c :: p.1, p.2)
    else ([], c :: rest)

/-- Value of a digit run. -/
def digitsVal (ds : List Char) : ℤ :=
  ds.foldl (fun acc c => acc * 10 + ((c.toNat - 48 : Nat) : ℤ)) 0

/-- Parse a JSON integer literal (fractional and exponent forms are outside
the model and rejected). -/
def parseNum (l : List Char) : Option (ℤ × List Char) :=
  let p0 : Bool × List Char :=
    match l with
    | c :: r => if c == '-' then (true, r) else (false, l)
    | [] => (false, l)
  let neg := p0.1
  let p := takeDigits p0.2
  let ds := p.1
  let r := p.2
  if ds = [] then none
  else if 1 < ds.length ∧ ds.headD '0' == '0' then none
  else
    let ok : Bool :=
      match r with
      | c :: _ => !(c == '.' || c == 'e' || c == 'E')
      | [] => true
    if ok then some ((if neg then -(digitsVal ds) else digitsVal ds), r) else none

mutual

/-- Strict JSON value parser (fuel-indexed; the fuel always exceeds the number
of remaining characters, so the `0` case is never reached on actual calls). -/
def parseVal : Nat → List Char → Option (JVal × List Char)
  | 0, _ => none
  | f + 1, input =>
    match skipWs input with
    | [] => none
    | c :: rest =>
      if c == braceOpen then
        match skipWs rest with
        | d :: r2 =>
          if d == braceClose then some (.jobj [], r2)
          else (parseMembers f (d :: r2)).map (fun p => (JVal.jobj p.1, p.2))
        | [] => none
      else if c == '[' then
        match skipWs rest with
        | d :: r2 =>
          if d == ']' then some (.jarr [], r2)
          else (parseItems f (d :: r2)).map (fun p => (JVal.jarr p.1, p.2))
        | [] => none
      else if c == '"' then
        (parseStrChars rest).map (fun p => (JVal.jstr (String.mk p.1), p.2))
      else if c == 't' then
        if listIsPfx ['r', 'u', 'e'] rest then some (.jbool true, rest.drop 3) else none
      else if c == 'f' then
        if listIsPfx ['a', 'l', 's', 'e'] rest then some (.jbool false, rest.drop 4) else none
      else if c == 'n' then
        if listIsPfx ['u', 'l', 'l'] rest then some (.jnull, rest.drop 3) else none
      else
        (parseNum (c :: rest)).map (fun p => (JVal.jnum p.1, p.2))

/-- Strict parser for a non-empty object member list (no trailing comma). -/
def parseMembers : Nat → List Char → Option (List (String × JVal) × List Char)
  | 0, _ => none
  | f + 1, l =>
    match skipWs l with
    | c :: r =>
      if c == '"' then
        match parseStrChars r with
        | none => none
        | some (kcs, r2) =>
          match skipWs r2 with
          | d :: r3 =>
            if d == ':' then
              match parseVal f r3 with
              | none => none
              | some (v, r4) =>
                match skipWs r4 with
                | e :: r5 =>
                  if e == ',' then
                    match parseMembers f r5 with
                    | some (kvs, r6) => some ((String.mk kcs, v) :: kvs, r6)
                    | none => none
                  else if e == braceClose then some ([(String.mk kcs, v)], r5)
                  else none
                | [] => none
            else none
          | [] => none
      else none
    | [] => none

/-- Strict parser for a non-empty array item list (no trailing comma). -/
def parseItems : Nat → List Char → Option (List JVal × List Char)
  | 0, _ => none
  | f + 1, l =>
    match parseVal f l with
    | none => none
    | some (v, r) =>
      match skipWs r with
      | c :: r2 =>
        if c == ',' then
          match parseItems f r2 with
          | some (vs, r3) => some (v :: vs, r3)
          | none => none
        else if c == ']' then some ([v], r2)
        else none
      | [] => none

end

/-- `json.loads`: parse one JSON document, requiring only whitespace after it. -/
def jsonLoads (s : String) : Option JVal :=
  match parseVal (s.length + 2) s.data with
  | some (v, rem) => if skipWs rem = [] then some v else none
  | none => none

/-- Python `str.strip()` (ASCII whitespace). -/
def pyStrip (s : String) : String :=
  String.mk (((s.data.dropWhile isReWs).reverse.dropWhile isReWs).reverse)

/-- `_strip_code_fences`. -/
def strip_code_fences (text : String) : String :=
  let t := pyStrip text
  let t := if strStarts t "```json" then strDropLeft t 7 else t
  let t := if strStarts t "```" then strDropLeft t 3 else t
  let t := if strEnds t "```" then strDropRight t 3 else t
  pyStrip t

/-- `_replace_smart_quotes`. -/
def replace_smart_quotes (s : String) : String :=
  String.mk (s.data.map (fun c =>
    if c == Char.ofNat 0x201C || c == Char.ofNat 0x201D then '"'
    else if c == Char.ofNat 0x2018 || c == Char.ofNat 0x2019 then squote
    else c))

/-- Drop characters up to (but excluding) the next newline, as `//.*?$` with
`re.MULTILINE` does. -/
def dropToEol : List Char → List Char
  | [] => []
  | c :: r => if c == '\n' then c :: r else dropToEol r

/-- The `//` comment pass of `_remove_json_comments`. -/
def removeLineCommentsF : Nat → List Char → List Char
  | 0, l => l
  | _ + 1, [] => []
  | f + 1, c :: rest =>
    match rest with
    | d :: rest2 =>
      if c == '/' && d == '/' then removeLineCommentsF f (dropToEol rest2)
      else c :: removeLineCommentsF f rest
    | [] => [c]

/-- Remainder after the first `*/`, if any. -/
def findCommentClose : List Char → Option (List Char)
  | [] => none
  | c :: rest =>
    match rest with
    | d :: rest2 => if c == '*' && d == '/' then some rest2 else findCommentClose rest
    | [] => none

/-- The `/* */` comment pass of `_remove_json_comments` (an unterminated
opener is left in place, as the regex then has no match). -/
def removeBlockCommentsF : Nat → List Char → List Char
  | 0, l => l
  | _ + 1, [] => []
  | f + 1, c :: rest =>
    match rest with
    | d :: rest2 =>
      if c == '/' && d == '*' then
        match findCommentClose rest2 with
        | some r => removeBlockCommentsF f r
        | none => c :: removeBlockCommentsF f rest
      else c :: removeBlockCommentsF f rest
    | [] => [c]

/-- `_remove_json_comments`. -/
def remove_json_comments (s : String) : String :=
  let l1 := removeLineCommentsF (s.length + 1) s.data
  String.mk (removeBlockCommentsF (l1.length + 1) l1)

/-- Suffix of the input starting at the first opening brace. -/
def findBraceStart : List Char → Option (List Char)
  | [] => none
  | c :: rest => if c == braceOpen then some (c :: rest) else findBraceStart rest

/-- Brace-balance scan of `_extract_first_braced_block` (input starts at the
first opening brace; `acc` holds the consumed prefix reversed). -/
def scanBraced : Nat → List Char → List Char → Option (List Char)
  | _, _, [] => none
  | depth, acc, c :: rest =>
    if c == braceOpen then scanBraced (depth + 1) (c :: acc) rest
    else if c == braceClose then
      if depth == 1 then some (c :: acc).reverse
      else scanBraced (depth - 1) (c :: acc) rest
    else scanBraced depth (c :: acc) rest

/-- `_extract_first_braced_block`. -/
def extract_first_braced_block (s : String) : Option String :=
  (findBraceStart s.data).bind (fun l => (scanBraced 0 [] l).map String.mk)

/-- Scan over `\s*` to a closing bracket, for the `,\s*([}\])` trailing-comma
regex: succeeds only when the whitespace run is followed by a closing brace or
bracket. -/
def scanWsToBracket : List Char → Option (Char × List Char)
  | [] => none
  | c :: rest =>
    if isReWs c then scanWsToBracket rest
    else if c == braceClose || c == ']' then some (c, rest)
    else none

/-- The trailing-comma removal pass (leftmost, non-overlapping, like
`re.sub`). -/
def rmTrailingCommasF : Nat → List Char → List Char
  | 0, l => l
  | _ + 1, [] => []
  | f + 1, c :: rest =>
    if c == ',' then
      match scanWsToBracket rest with
      | some (b, r2) => b :: rmTrailingCommasF f r2
      | none => c :: rmTrailingCommasF f rest
    else c :: rmTrailingCommasF f rest

/-- Remove trailing commas before closing brackets. -/
def remove_trailing_commas (s : String) : String :=
  String.mk (rmTrailingCommasF (s.length + 1) s.data)

/-- Scan the body of a single-quoted value for the
`:\s*'([^'\\]*(?:\\.[^'\\]*)*)'` regex: the content (escapes preserved
verbatim) and the remainder after the closing quote. A backslash before a
newline or at the end makes the pattern fail. -/
def scanSingleQuoted : List Char → Option (List Char × List Char)
  | [] => none
  | c :: rest =>
    if c == squote then some ([], rest)
    else if c == '\\' then
      match rest with
      | [] => none
      | e :: r2 =>
        if e == '\n' then none
        else (scanSingleQuoted r2).map (fun p => (c :: e :: p.1, p.2))
    else (scanSingleQuoted rest).map (fun p => (c :: p.1, p.2))

/-- The single-quoted-key pass `([,{]\s*)'([^'\n]+)'\s*:` → `\1"\2":`
(the whitespace between the closing quote and the colon is dropped, as it is
not captured by the replacement). -/
def fixKeysF : Nat → List Char → List Char
  | 0, l => l
  | _ + 1, [] => []
  | f + 1, c :: rest =>
    if c == ',' || c == braceOpen then
      let ws := rest.takeWhile isReWs
      let r1 := rest.dropWhile isReWs
      match r1 with
      | q :: r2 =>
        if q == squote then
          let key := r2.takeWhile (fun ch => !(ch == squote) && !(ch == '\n'))
          let r3 := r2.dropWhile (fun ch => !(ch == squote) && !(ch == '\n'))
          match r3 with
          | q2 :: r4 =>
            if q2 == squote && !key.isEmpty then
              match r4.dropWhile isReWs with
              | colon :: r5 =>
                if colon == ':' then
                  c :: (ws ++ ('"' :: (key ++ ('"' :: ':' :: fixKeysF f r5))))
                else c :: fixKeysF f rest
              | [] => c :: fixKeysF f rest
            else c :: fixKeysF f rest
          | [] => c :: fixKeysF f rest
        else c :: fixKeysF f rest
      | [] => c :: fixKeysF f rest
    else c :: fixKeysF f rest

/-- The single-quoted-value pass `:\s*'(...)'` → `: "..."` (the whitespace
after the colon is replaced by a single space, per the replacement string). -/
def fixValsF : Nat → List Char → List Char
  | 0, l => l
  | _ + 1, [] => []
  | f + 1, c :: rest =>
    if c == ':' then
      match rest.dropWhile isReWs with
      | q :: r2 =>
        if q == squote then
          match scanSingleQuoted r2 with
          | some (content, rem) =>
            ':' :: ' ' :: '"' :: (content ++ ('"' :: fixValsF f rem))
          | none => c :: fixValsF f rest
        else c :: fixValsF f rest
      | [] => c :: fixValsF f rest
    else c :: fixValsF f rest

/-- The normalization applied by `parse_lenient_json` before any parse
attempt: strip code fences, extract the first brace-balanced block (or keep
the whole text), remove comments, normalize smart quotes. -/
def normalize_response (text : String) : String :=
  let raw := strip_code_fences text
  let candidate := (extract_first_braced_block raw).getD raw
  replace_smart_quotes (remove_json_comments candidate)

/-- `parse_lenient_json`: strict parse of the normalized text; on failure
retry after removing trailing commas; on failure retry after converting
single-quoted keys and values to double-quoted (a final failure means the
Python function raises). -/
def parse_lenient_json (text : String) : Option JVal :=
  let candidate := normalize_response text
  match jsonLoads candidate with
  | some v => some v
  | none =>
    let without_trailing_commas := remove_trailing_commas candidate
    match jsonLoads without_trailing_commas with
    | some v => some v
    | none =>
      let fixed_keys := String.mk (fixKeysF (without_trailing_commas.length + 1)
        without_trailing_commas.data)
      let fixed_both := String.mk (fixValsF (fixed_keys.length + 1) fixed_keys.data)
      jsonLoads fixed_both

/-- In `CohereServoPlanner.plan_servo_positions` (and
`plan_servo_trajectory`), the deterministic fallback is invoked for a remote
response exactly when processing it raises — in this model, when
`parse_lenient_json` returns `none`. -/
def uses_fallback (resp : String) : Bool := !(parse_lenient_json resp).isSome

/-! ## Predicates and concrete instances used by the theorems -/

/-- All six joint angles of a command group lie in `[0, 180]`. -/
def inRange (g : JointAngles) : Prop :=
  ∀ j : Joint, 0 ≤ g.deg j ∧ g.deg j ≤ 180

/-- Between two consecutive states, every joint moves by at most `δ` degrees. -/
def deltaOk (δ : ℤ) (a b : JointAngles) : Prop :=
  ∀ j : Joint, |b.deg j - a.deg j| ≤ δ

/-- The phase at index `i` has a preceding neighbor with explosive velocity. -/
def prevExplosive (phases : List ExecutionPhase) (i : Nat) : Prop :=
  0 < i ∧ ∃ q, phases[i - 1]? = some q ∧ q.velocity_profile = some "explosive"

/-- The phase at index `i` has a following neighbor with explosive velocity. -/
def nextExplosive (phases : List ExecutionPhase) (i : Nat) : Prop :=
  ∃ q, phases[i + 1]? = some q ∧ q.velocity_profile = some "explosive"

/-- A step named "Strike" of difficulty 3 (Scenario A's input). -/
def strikeStep : SkillStep :=
  { name := "Strike", how := "", why := "", cues := none,
    common_mistakes := none, citations := [], difficulty_level := 3 }

/-- A guide with zero steps (Scenario B's input). -/
def emptyGuide : SkillGuide :=
  { query := "", title := "Empty", domain := .general, prerequisites := [],
    safety := [], equipment := [], core_principles := [], steps := [],
    evaluation := [], sources := [], difficulty_rating := 1 }

/-- A martial-arts guide with the single step `strikeStep`. -/
def strikeGuide : SkillGuide :=
  { query := "boxing"
    title := "Strike Guide"
    domain := .martial_arts
    prerequisites := []
    safety := []
    equipment := []
    core_principles := []
    steps := [strikeStep]
    evaluation := []
    sources := []
    difficulty_rating := 1 }

/-- The phase produced for `strikeStep`: template "strike" (base 120 ms),
duration `int(120 × 1.4) = 168`. -/
def strikePhase : ExecutionPhase :=
  { name := "strike"
    duration_ms := 168
    cue := "explosive power"
    pose_hints := ""
    rationale := ""
    citations := []
    velocity_profile := some "explosive"
    force_profile := some "maximum" }

/-- Constraints with `max_velocity_hint = 0.5` (C3's counterexample input). -/
def c3Half : PhysicalConstraints := ⟨1/2, true, "", [], []⟩

/-- Constraints with `max_velocity_hint = 0.8` (Scenario C's input). -/
def c3Hint : PhysicalConstraints := ⟨8/10, true, "", [], []⟩

/-- Constraints with the falsy `max_velocity_hint = 0` (C10's input). -/
def c0Hint : PhysicalConstraints := ⟨0, true, "", [], []⟩

/-- Scenario E's phase: named "right_cross" with a cue containing no side
keyword. -/
def phaseE : ExecutionPhase :=
  { name := "right_cross"
    duration_ms := 150
    cue := "execute with control"
    pose_hints := ""
    rationale := ""
    citations := []
    velocity_profile := some "medium"
    force_profile := some "controlled" }

/-- Scenario D's remote oracle response: a valid JSON object except for one
trailing comma before the closing brace. -/
def scenarioD : String :=
  "\x7b\"left_arm\": \x7b\"shoulder_vertical\": 90, \"shoulder_horizontal\": 45, \"elbow_vertical\": 115\x7d, \"right_arm\": \x7b\"shoulder_vertical\": 90, \"shoulder_horizontal\": 150, \"elbow_vertical\": 120\x7d,\x7d"

/-- A response with a single-quoted key, recoverable only by the third parse
attempt (the placeholder bars become single quotes). -/
def singleQuotedResp : String :=
  String.mk ("\x7b|left_arm|: 1\x7d".data.map (fun c => if c == '|' then squote else c))

/-- An explosive/maximum phase for the timing-pass witness. -/
def c7Explosive : ExecutionPhase :=
  { name := "strike", duration_ms := 150, cue := "", pose_hints := "",
    rationale := "", citations := [], velocity_profile := some "explosive",
    force_profile := some "maximum" }

/-- A slow/minimal phase for the timing-pass witness. -/
def c7Slow : ExecutionPhase :=
  { name := "recovery", duration_ms := 400, cue := "", pose_hints := "",
    rationale := "", citations := [], velocity_profile := some "slow",
    force_profile := some "minimal" }

/-- A three-phase list whose middle phase has explosive neighbors on both
sides. -/
def c7Phases : List ExecutionPhase := [c7Explosive, c7Slow, c7Explosive]

/-- A one-phase plan for the synthesizer witness. -/
def c1Plan : ExecutionPlan :=
  mkExecutionPlan "witness skill" [phaseE] martialArtsConstraints [] 0 0

/-- A constant oracle emitting one extreme waypoint, for the synthesizer
witness. -/
def c1Oracle : ExecutionPhase → List Waypoint :=
  fun _ => [⟨⟨500, -40, 180⟩, ⟨0, 90, 260⟩⟩]

/-! ## Helper lemmas -/

theorem pyTrunc_of_nonneg {q : ℚ} (h : 0 ≤ q) : pyTrunc q = Int.floor q := by
  unfold pyTrunc
  rw [if_neg (not_lt.mpr h)]

theorem clampAngle_nonneg (v : ℚ) : 0 ≤ clampAngle v := le_max_left 0 _

theorem clampAngle_le_180 (v : ℚ) : clampAngle v ≤ 180 := by
  unfold clampAngle
  exact max_le (by norm_num) (min_le_left _ _)

theorem smooth_mem (δ t p : ℤ) (hδ : 0 ≤ δ) (ht0 : 0 ≤ t) (ht1 : t ≤ 180)
    (hp0 : 0 ≤ p) (hp1 : p ≤ 180) :
    (0 ≤ smooth δ t p ∧ smooth δ t p ≤ 180) ∧ |smooth δ t p - p| ≤ δ := by
  unfold smooth
  split_ifs with h1 h2
  · exact ⟨⟨by omega, by omega⟩, by rw [abs_le]; omega⟩
  · exact ⟨⟨by omega, by omega⟩, by rw [abs_le]; omega⟩
  · exact ⟨⟨by omega, by omega⟩, by rw [abs_le]; omega⟩

theorem deg_smoothAngles (δ : ℤ) (prev raw : JointAngles) (j : Joint) :
    (smoothAngles δ prev raw).deg j = smooth δ (raw.deg j) (prev.deg j) := by
  cases j <;> rfl

theorem rawOf_inRange (wp : Waypoint) : inRange (rawOf wp) := by
  intro j
  cases j <;> exact ⟨clampAngle_nonneg _, clampAngle_le_180 _⟩

theorem neutral_inRange : inRange neutralAngles := by
  intro j
  cases j <;> exact ⟨by decide, by decide⟩

theorem smoothAngles_step (δ : ℤ) (hδ : 0 ≤ δ) (prev raw : JointAngles)
    (hprev : inRange prev) (hraw : inRange raw) :
    inRange (smoothAngles δ prev raw) ∧ deltaOk δ prev (smoothAngles δ prev raw) := by
  constructor
  · intro j
    rw [deg_smoothAngles]
    exact (smooth_mem δ _ _ hδ (hraw j).1 (hraw j).2 (hprev j).1 (hprev j).2).1
  · intro j
    rw [deg_smoothAngles]
    exact (smooth_mem δ _ _ hδ (hraw j).1 (hraw j).2 (hprev j).1 (hprev j).2).2

theorem pyTrunc_eq_of (q : ℚ) (n : ℤ) (h0 : 0 ≤ q) (h1 : (n:ℚ) ≤ q)
    (h2 : q < n + 1) : pyTrunc q = n := by
  rw [pyTrunc_of_nonneg h0]
  exact Int.floor_eq_iff.mpr ⟨h1, h2⟩

theorem pyRound_intCast (n : ℤ) : pyRound ((n:ℚ)) = n := by
  simp only [pyRound, Int.floor_intCast, sub_self]
  norm_num

theorem clampAngle_int (n : ℤ) (h0 : 0 ≤ n) (h1 : n ≤ 180) :
    clampAngle ((n:ℚ)) = n := by
  unfold clampAngle
  rw [pyRound_intCast, min_eq_right h1, max_eq_right h0]

theorem max_delta_of_eval (c : PhysicalConstraints) (mv : ℚ)
    (hmv : (if c.max_velocity_hint = 0 then (8:ℚ)/10 else c.max_velocity_hint) = mv)
    (h0 : 0 ≤ mv) (h1 : mv ≤ 1) :
    max_delta_of c = pyTrunc (10 + mv * 35) := by
  unfold max_delta_of
  rw [hmv]
  show pyTrunc (10 + (max 0 (min 1 mv)) * 35) = pyTrunc (10 + mv * 35)
  rw [min_eq_right h1, max_eq_right h0]

theorem max_delta_of_ge_ten (c : PhysicalConstraints) : 10 ≤ max_delta_of c := by
  unfold max_delta_of
  have h0 : (0:ℚ) ≤ max 0 (min 1 (if c.max_velocity_hint = 0 then 8/10 else c.max_velocity_hint)) :=
    le_max_left _ _
  have hq : (10:ℚ) ≤ 10 + (max 0 (min 1 (if c.max_velocity_hint = 0 then 8/10 else c.max_velocity_hint))) * 35 :=
    le_add_of_nonneg_right (mul_nonneg h0 (by norm_num))
  rw [pyTrunc_of_nonneg (le_trans (by norm_num) hq)]
  exact Int.le_floor.mpr (by push_cast; linarith)

theorem max_delta_of_le_45 (c : PhysicalConstraints) : max_delta_of c ≤ 45 := by
  unfold max_delta_of
  have h1 : max 0 (min 1 (if c.max_velocity_hint = 0 then 8/10 else c.max_velocity_hint)) ≤ (1:ℚ) :=
    max_le (by norm_num) (min_le_left _ _)
  have h0 : (0:ℚ) ≤ max 0 (min 1 (if c.max_velocity_hint = 0 then 8/10 else c.max_velocity_hint)) :=
    le_max_left _ _
  have hq : (10:ℚ) + (max 0 (min 1 (if c.max_velocity_hint = 0 then 8/10 else c.max_velocity_hint))) * 35 ≤ 45 := by
    nlinarith
  rw [pyTrunc_of_nonneg (by positivity)]
  calc Int.floor ((10:ℚ) + (max 0 (min 1 (if c.max_velocity_hint = 0 then 8/10 else c.max_velocity_hint))) * 35)
      ≤ Int.floor (45:ℚ) := Int.floor_mono hq
    _ = 45 := by norm_num

theorem synthFrom_safe (δ : ℤ) (hδ : 0 ≤ δ) :
    ∀ (l : List Waypoint) (prev : JointAngles) (seq : Nat), inRange prev →
      (∀ cg ∈ synthFrom δ prev seq l, inRange cg.commands) ∧
      List.Chain' (deltaOk δ) (prev :: (synthFrom δ prev seq l).map (fun c => c.commands)) := by
  intro l
  induction l with
  | nil =>
    intro prev seq _
    exact ⟨by simp [synthFrom], by simp [synthFrom]⟩
  | cons wp rest ih =>
    intro prev seq hprev
    have hs := smoothAngles_step δ hδ prev (rawOf wp) hprev (rawOf_inRange wp)
    have hrec := ih (smoothAngles δ prev (rawOf wp)) (seq + 1) hs.1
    constructor
    · intro cg hcg
      rw [synthFrom] at hcg
      rcases List.mem_cons.mp hcg with h | h
      · rw [h]
        exact hs.1
      · exact hrec.1 cg h
    · rw [synthFrom]
      simp only [List.map_cons]
      exact List.chain'_cons.mpr ⟨hs.2, hrec.2⟩

theorem mapWithIndex_getElem? (f : Nat → ExecutionPhase → ExecutionPhase) :
    ∀ (l : List ExecutionPhase) (k i : Nat),
      (mapWithIndex f k l)[i]? = (l[i]?).map (f (k + i)) := by
  intro l
  induction l with
  | nil => intro k i; simp [mapWithIndex]
  | cons a as ih =>
    intro k i
    cases i with
    | zero => simp [mapWithIndex]
    | succ j =>
      simp only [mapWithIndex, List.getElem?_cons_succ, ih (k + 1) j]
      have : k + 1 + j = k + (j + 1) := by omega
      rw [this]

/-! ## Evaluation lemmas for the concrete instances -/

theorem strikeStep_template :
    findTemplate (pyLower "Strike") (domainPhaseMappings .martial_arts)
      = some ⟨120, "explosive", "maximum"⟩ := by
  decide

theorem strikeStep_phase : map_step_to_phase strikeStep .martial_arts = strikePhase := by
  unfold map_step_to_phase
  simp only [strikeStep, strikeStep_template, Option.getD_some]
  unfold strikePhase
  rw [ExecutionPhase.mk.injEq]
  refine ⟨by decide, ?_, by decide, rfl, rfl, rfl, rfl, rfl⟩
  exact pyTrunc_eq_of _ 168 (by push_cast; norm_num) (by push_cast; norm_num)
    (by push_cast; norm_num)

theorem strikeGuide_compile :
    compile_skill_guide strikeGuide
      = Except.ok (mkExecutionPlan "Strike Guide" [strikePhase]
          (generate_constraints .martial_arts (calculate_complexity_score strikeGuide))
          [] 0 (calculate_complexity_score strikeGuide)) := by
  unfold compile_skill_guide
  rw [if_neg (by decide : ¬ (strikeGuide.steps = []))]
  simp only [strikeGuide, List.map_cons, List.map_nil, strikeStep_phase]
  rfl

theorem phaseE_targets :
    calculate_3d_targets phaseE
      = (⟨3/10, 2/10, 12/10, 0, 0, 0⟩, ⟨3/10, -2/10, 12/10, 0, 0, 0⟩) := by
  have h1 : ¬ (strIn "uppercut" (pyLower phaseE.name) = true) := by decide
  have h2 : ¬ (strIn "footwork" (pyLower phaseE.name) = true) := by decide
  unfold calculate_3d_targets
  rw [if_neg h1, if_neg h2]

theorem phaseE_left_arm : mapArm ⟨3/10, 2/10, 12/10, 0, 0, 0⟩ true false 1 = ⟨90, 45, 115⟩ := by
  unfold mapArm
  simp only [Bool.false_eq_true, if_false, if_true]
  have e1 : (90 + ((12:ℚ)/10 - 12/10) * 200 * (9/10)) = ((90:ℤ):ℚ) := by norm_num
  have e2 : (90 - (2:ℚ)/10 * 300) = ((30:ℤ):ℚ) := by norm_num
  have e3 : (120 - ((3:ℚ)/10 - 3/10) * 300 * (8/10)) = ((120:ℤ):ℚ) := by norm_num
  rw [e1, e2, e3, clampAngle_int 90 (by decide) (by decide),
    clampAngle_int 30 (by decide) (by decide), clampAngle_int 120 (by decide) (by decide)]
  have e4 : ((30:ℤ) + 60).fdiv 2 = 45 := by decide
  have e5 : ((120:ℤ) + 110).fdiv 2 = 115 := by decide
  rw [e4, e5, clampAngle_int 45 (by decide) (by decide),
    clampAngle_int 115 (by decide) (by decide)]

theorem phaseE_right_arm : mapArm ⟨3/10, -2/10, 12/10, 0, 0, 0⟩ false true 1 = ⟨90, 150, 120⟩ := by
  unfold mapArm
  simp only [Bool.false_eq_true, if_false, if_true]
  have e1 : (90 + ((12:ℚ)/10 - 12/10) * 200 * (11/10)) = ((90:ℤ):ℚ) := by norm_num
  have e2 : (90 + -(-(2:ℚ)/10) * 300) = ((150:ℤ):ℚ) := by norm_num
  have e3 : (120 - ((3:ℚ)/10 - 3/10) * 300 * (12/10)) = ((120:ℤ):ℚ) := by norm_num
  rw [e1, e2, e3, clampAngle_int 90 (by decide) (by decide),
    clampAngle_int 150 (by decide) (by decide), clampAngle_int 120 (by decide) (by decide)]
  have e4 : ((90:ℤ):ℚ) * 1 = ((90:ℤ):ℚ) := by norm_num
  have e5 : ((1:ℚ) - 1) * 10 = ((0:ℤ):ℚ) := by norm_num
  rw [e4, e5, clampAngle_int 90 (by decide) (by decide), pyRound_intCast 0]
  have e6 : ((120:ℤ) - 0 : ℤ) = (120:ℤ) := by norm_num
  rw [e6, clampAngle_int 120 (by decide) (by decide)]

theorem phaseE_fallback :
    fallback_plan phaseE (calculate_3d_targets phaseE).1 (calculate_3d_targets phaseE).2
      = (⟨90, 45, 115⟩, ⟨90, 150, 120⟩) := by
  have hroles : inferRoles phaseE = (false, true) := by decide
  have hps : powerScale phaseE.velocity_profile phaseE.force_profile = 1 := by decide
  rw [phaseE_targets]
  unfold fallback_plan
  rw [hroles, hps]
  simp only [Bool.not_true, Bool.not_false, Bool.and_false, Bool.and_true, Bool.false_and,
    Bool.true_and]
  rw [phaseE_left_arm, phaseE_right_arm]

theorem c3Hint_max_delta : max_delta_of c3Hint = 38 := by
  rw [max_delta_of_eval c3Hint (8/10) (by norm_num [c3Hint]) (by norm_num) (by norm_num)]
  exact pyTrunc_eq_of _ 38 (by norm_num) (by norm_num) (by norm_num)

/-! ## Claim theorems -/

/-- C1: for every execution plan and every servo-planner behavior (remote or
fallback), the synthesized minimal servo sequence only emits integer degrees
in `[0, 180]`, and for every joint the change between consecutive command
groups — with the pre-sequence state being 90 for every joint, carried across
phase boundaries — has absolute value at most the per-plan `max_delta`. -/
theorem c1_minimal_sequence_safe (plan : ExecutionPlan)
    (oracle : ExecutionPhase → List Waypoint) :
    (∀ cg ∈ (generate_minimal_servo_sequence plan oracle).2, inRange cg.commands) ∧
    List.Chain' (deltaOk (max_delta_of plan.constraints))
      (neutralAngles ::
        ((generate_minimal_servo_sequence plan oracle).2.map (fun c => c.commands))) := by
  have hδ : (0:ℤ) ≤ max_delta_of plan.constraints :=
    le_trans (by norm_num) (max_delta_of_ge_ten plan.constraints)
  exact synthFrom_safe _ hδ ((plan.phases.map oracle).flatten) neutralAngles 1 neutral_inRange

/-- Witness for C1 at a concrete one-phase plan and an oracle emitting an
extreme waypoint. -/
theorem c1_witness :
    (∀ cg ∈ (generate_minimal_servo_sequence c1Plan c1Oracle).2, inRange cg.commands) ∧
    List.Chain' (deltaOk (max_delta_of c1Plan.constraints))
      (neutralAngles ::
        ((generate_minimal_servo_sequence c1Plan c1Oracle).2.map (fun c => c.commands))) :=
  c1_minimal_sequence_safe c1Plan c1Oracle

/-- C2: `compile_skill_guide` fails with the structural `CompilationError`
"Cannot compile guide with no steps" if and only if the guide has no steps;
for every guide with at least one step it returns a plan, and for a guide
with zero steps no plan is produced. -/
theorem c2_compile_fails_iff_empty (guide : SkillGuide) :
    ((∃ p, compile_skill_guide guide = Except.ok p) ↔ guide.steps ≠ []) ∧
    (compile_skill_guide guide = Except.error "Cannot compile guide with no steps"
      ↔ guide.steps = []) := by
  unfold compile_skill_guide
  by_cases h : guide.steps = []
  · rw [if_pos h]
    constructor
    · constructor
      · rintro ⟨p, hp⟩
        exact Except.noConfusion hp
      · intro hne
        exact absurd h hne
    · exact ⟨fun _ => h, fun _ => rfl⟩
  · rw [if_neg h]
    constructor
    · exact ⟨fun _ => h, fun _ => ⟨_, rfl⟩⟩
    · constructor
      · intro he
        exact Except.noConfusion he
      · intro hh
        exact absurd hh h

/-- Witness for C2 at the zero-step guide: compilation yields the structural
error and no plan. -/
theorem c2_witness :
    compile_skill_guide emptyGuide = Except.error "Cannot compile guide with no steps" :=
  (c2_compile_fails_iff_empty emptyGuide).2.mpr rfl

/-- C3 counterexample: for `max_velocity_hint = 0.5` the synthesizer's rate
limit is `int(10 + 0.5 × 35) = 27`, not `round(27.5) = 28`: the code
truncates instead of rounding. -/
theorem c3_counterexample :
    max_delta_of c3Half ≠ round ((10:ℚ) + (max 0 (min 1 ((1:ℚ)/2))) * 35) := by
  have hL : max_delta_of c3Half = 27 := by
    rw [max_delta_of_eval c3Half (1/2) (by norm_num [c3Half]) (by norm_num) (by norm_num)]
    exact pyTrunc_eq_of _ 27 (by norm_num) (by norm_num) (by norm_num)
  have hR : round ((10:ℚ) + (max 0 (min 1 ((1:ℚ)/2))) * 35) = 28 := by
    rw [min_eq_right (by norm_num : ((1:ℚ)/2) ≤ 1),
      max_eq_right (by norm_num : (0:ℚ) ≤ 1/2), round_eq]
    have h : ((10:ℚ) + 1/2 * 35 + 1/2) = ((28:ℤ):ℚ) := by norm_num
    rw [h, Int.floor_intCast]
  rw [hL, hR]
  decide

/-- C3 amended: for every constraints record whose `max_velocity_hint` is
non-falsy, the per-sequence rate limit equals the truncation `int` (not
`round`) of `10 + 35 × clamp(max_velocity_hint, 0, 1)` degrees, computed once
per plan and lying in `[10, 45]`; for `max_velocity_hint = 0.8` it equals 38. -/
theorem c3_amended_rate_limit (c : PhysicalConstraints)
    (h : c.max_velocity_hint ≠ 0) :
    max_delta_of c = pyTrunc (10 + (max 0 (min 1 c.max_velocity_hint)) * 35) ∧
    10 ≤ max_delta_of c ∧ max_delta_of c ≤ 45 ∧ max_delta_of c3Hint = 38 := by
  refine ⟨?_, max_delta_of_ge_ten c, max_delta_of_le_45 c, c3Hint_max_delta⟩
  unfold max_delta_of
  rw [if_neg h]

/-- Witness for C3's amended theorem at `max_velocity_hint = 0.8`. -/
theorem c3_amended_witness :
    max_delta_of c3Hint
      = pyTrunc (10 + (max 0 (min 1 c3Hint.max_velocity_hint)) * 35) ∧
    10 ≤ max_delta_of c3Hint ∧ max_delta_of c3Hint ≤ 45 ∧ max_delta_of c3Hint = 38 :=
  c3_amended_rate_limit c3Hint (by norm_num [c3Hint])

/-- C4 counterexample: for the one-step martial-arts guide `strikeGuide`
(step "Strike", difficulty 3) the claimed formula gives
`0.5×1 + 0.8×3 + 1.2 = 4.1` — which is exactly what
`_calculate_complexity_score` computes — but the compiled plan's
`complexity_score` is `0.2168 = 271/1250`, because
`ExecutionPlan.__post_init__` overwrites it. -/
theorem c4_counterexample :
    (compile_skill_guide strikeGuide).toOption.map (fun p => p.complexity_score)
      = some (271/1250) ∧
    calculate_complexity_score strikeGuide = 41/10 ∧
    (5/10 : ℚ) * 1 + (8/10) * 3 + 12/10 = 41/10 ∧
    ((271:ℚ)/1250) ≠ 41/10 := by
  refine ⟨?_, ?_, by norm_num, by norm_num⟩
  · rw [strikeGuide_compile]
    simp only [Except.toOption, Option.map_some']
    have hX : (mkExecutionPlan "Strike Guide" [strikePhase]
        (generate_constraints .martial_arts (calculate_complexity_score strikeGuide))
        [] 0 (calculate_complexity_score strikeGuide)).complexity_score = 271/1250 := by
      simp only [mkExecutionPlan, strikePhase, List.map_cons, List.map_nil,
        List.sum_cons, List.sum_nil, List.length_cons, List.length_nil]
      norm_num
    rw [hX]
  · simp only [calculate_complexity_score, strikeGuide, strikeStep, domainComplexity,
      List.map_cons, List.map_nil, List.sum_cons, List.sum_nil,
      List.length_cons, List.length_nil]
    norm_num

/-- C4 amended: for every guide with at least one step, compilation succeeds
and the plan's stored `complexity_score` equals
`0.2 × phase_count + 0.1 × (total_duration_ms / 1000)` (recomputed by
`ExecutionPlan.__post_init__`); the `0.5/0.8/domain-weight` score of
`_calculate_complexity_score` is computed and feeds constraint generation,
but does not survive into the plan's `complexity_score` field. -/
theorem c4_amended_complexity (guide : SkillGuide) (h : guide.steps ≠ []) :
    ∃ p, compile_skill_guide guide = Except.ok p ∧
      p.complexity_score
        = (p.phases.length : ℚ) * (2/10) + ((p.total_duration_ms : ℚ) / 1000) * (1/10) ∧
      p.total_duration_ms = (p.phases.map (fun ph => ph.duration_ms)).sum ∧
      p.constraints = generate_constraints guide.domain (calculate_complexity_score guide) := by
  unfold compile_skill_guide
  rw [if_neg h]
  exact ⟨_, rfl, rfl, rfl, rfl⟩

/-- Witness for C4's amended theorem at the concrete guide `strikeGuide`. -/
theorem c4_amended_witness :
    ∃ p, compile_skill_guide strikeGuide = Except.ok p ∧
      p.complexity_score
        = (p.phases.length : ℚ) * (2/10) + ((p.total_duration_ms : ℚ) / 1000) * (1/10) ∧
      p.total_duration_ms = (p.phases.map (fun ph => ph.duration_ms)).sum ∧
      p.constraints
        = generate_constraints strikeGuide.domain (calculate_complexity_score strikeGuide) :=
  c4_amended_complexity strikeGuide (by decide)

/-- C5 counterexample: for the phase "right_cross" with a side-keyword-free
cue, the inactive left arm's pre-guard `shoulder_horizontal` is 30, so
"pulled halfway toward 120°" would give `(30 + 120) // 2 = 75`; the code
produces 45, because the left-side guard constant is 60°, not 120°. -/
theorem c5_counterexample :
    clampAngle (90 - (2/10 : ℚ) * 300) = 30 ∧
    (fallback_plan phaseE (calculate_3d_targets phaseE).1
        (calculate_3d_targets phaseE).2).1.shoulder_horizontal = 45 ∧
    ((30:ℤ) + 120).fdiv 2 = 75 ∧ (45:ℤ) ≠ 75 := by
  refine ⟨?_, ?_, by decide, by decide⟩
  · have e : (90 - (2/10:ℚ) * 300) = ((30:ℤ):ℚ) := by norm_num
    rw [e]
    exact clampAngle_int 30 (by decide) (by decide)
  · rw [phaseE_fallback]

/-- C5 amended: for the phase "right_cross" with a side-keyword-free cue the
fallback marks the right arm active and the left arm inactive; the left arm
is pulled halfway toward the left-side guard constants: `shoulder_horizontal`
toward 60° (120° is the right-side constant) and `elbow_vertical` toward
110°, giving left angles (90, 45, 115) and right angles (90, 150, 120). -/
theorem c5_amended_guard :
    inferRoles phaseE = (false, true) ∧
    fallback_plan phaseE (calculate_3d_targets phaseE).1 (calculate_3d_targets phaseE).2
      = (⟨90, 45, 115⟩, ⟨90, 150, 120⟩) ∧
    ((30:ℤ) + 60).fdiv 2 = 45 ∧ ((120:ℤ) + 110).fdiv 2 = 115 := by
  refine ⟨by decide, phaseE_fallback, by decide, by decide⟩

/-- C6 counterexample: for velocity "fast" and force "controlled" the
fallback multiplier is 1.2 although the velocity is not explosive and the
force is not maximum, so "1.2 if and only if explosive velocity or maximum
force" fails. -/
theorem c6_counterexample :
    ¬ ((powerScale (some "fast") (some "controlled") = 12/10) ↔
        (pyLower (orDefault (some "fast") "medium") = "explosive" ∨
         pyLower (orDefault (some "controlled") "controlled") = "maximum")) := by
  intro hiff
  have hc : pyLower (orDefault (some "fast") "medium") = "explosive" ∨
      pyLower (orDefault (some "fast") "medium") = "fast" ∨
      pyLower (orDefault (some "controlled") "controlled") = "maximum" := by
    decide
  have h12 : powerScale (some "fast") (some "controlled") = 12/10 := by
    unfold powerScale
    rw [if_pos hc]
  rcases hiff.mp h12 with h | h
  · exact absurd h (by decide)
  · exact absurd h (by decide)

/-- C6 amended: the fallback multiplier is 1.2 iff the (defaulted, lowercased)
velocity profile is explosive or fast, or the force profile is maximum; 0.9
iff the velocity is slow and the force minimal; and 1.0 in every other case. -/
theorem c6_amended_power_scale (v f : Option String) :
    (powerScale v f = 12/10 ↔
      (pyLower (orDefault v "medium") = "explosive" ∨
       pyLower (orDefault v "medium") = "fast" ∨
       pyLower (orDefault f "controlled") = "maximum")) ∧
    (powerScale v f = 9/10 ↔
      (pyLower (orDefault v "medium") = "slow" ∧
       pyLower (orDefault f "controlled") = "minimal")) ∧
    (¬ (pyLower (orDefault v "medium") = "explosive" ∨
        pyLower (orDefault v "medium") = "fast" ∨
        pyLower (orDefault f "controlled") = "maximum") →
     ¬ (pyLower (orDefault v "medium") = "slow" ∧
        pyLower (orDefault f "controlled") = "minimal") →
     powerScale v f = 1) := by
  unfold powerScale
  by_cases h1 : pyLower (orDefault v "medium") = "explosive" ∨
      pyLower (orDefault v "medium") = "fast" ∨
      pyLower (orDefault f "controlled") = "maximum"
  · rw [if_pos h1]
    refine ⟨⟨fun _ => h1, fun _ => rfl⟩,
      ⟨fun hq => absurd hq (by norm_num), fun hc => ?_⟩, fun hn _ => absurd h1 hn⟩
    rcases h1 with hh | hh | hh
    · rw [hc.1] at hh
      exact absurd hh (by decide)
    · rw [hc.1] at hh
      exact absurd hh (by decide)
    · rw [hc.2] at hh
      exact absurd hh (by decide)
  · rw [if_neg h1]
    by_cases h2 : pyLower (orDefault v "medium") = "slow" ∧
        pyLower (orDefault f "controlled") = "minimal"
    · rw [if_pos h2]
      exact ⟨⟨fun hq => absurd hq (by norm_num), fun hc => absurd hc h1⟩,
        ⟨fun _ => h2, fun _ => rfl⟩, fun _ hn2 => absurd h2 hn2⟩
    · rw [if_neg h2]
      exact ⟨⟨fun hq => absurd hq (by norm_num), fun hc => absurd hc h1⟩,
        ⟨fun hq => absurd hq (by norm_num), fun hc => absurd hc h2⟩, fun _ _ => rfl⟩

/-- Witness for C6's amended theorem at velocity "slow", force "minimal". -/
theorem c6_amended_witness : powerScale (some "slow") (some "minimal") = 9/10 :=
  (c6_amended_power_scale (some "slow") (some "minimal")).2.1.mpr ⟨by decide, by decide⟩

/-- C7: in the timing-optimization pass, a phase with slow velocity whose
following neighbor is explosive gets `int(duration × 0.9)` from its original
base duration (this check runs second and overwrites the first, so the two
never stack); a phase with slow velocity and an explosive preceding neighbor,
when the second check does not fire, gets `int(duration × 1.2)` from the
original base; a phase with no qualifying neighbor keeps its duration, and
all other fields are always preserved. -/
theorem c7_optimize_phase_timing_spec (phases : List ExecutionPhase) (i : Nat)
    (p : ExecutionPhase) (hp : phases[i]? = some p) :
    ∃ q, (optimize_phase_timing phases)[i]? = some q ∧
      q.name = p.name ∧ q.cue = p.cue ∧ q.pose_hints = p.pose_hints ∧
      q.rationale = p.rationale ∧ q.citations = p.citations ∧
      q.velocity_profile = p.velocity_profile ∧ q.force_profile = p.force_profile ∧
      (p.velocity_profile = some "slow" → nextExplosive phases i →
        q.duration_ms = pyTrunc ((p.duration_ms : ℚ) * (9/10))) ∧
      (prevExplosive phases i → p.velocity_profile = some "slow" →
        ¬ nextExplosive phases i →
        q.duration_ms = pyTrunc ((p.duration_ms : ℚ) * (12/10))) ∧
      (¬ (prevExplosive phases i ∧ p.velocity_profile = some "slow") →
        ¬ (p.velocity_profile = some "slow" ∧ nextExplosive phases i) →
        q.duration_ms = p.duration_ms) := by
  have hi : i < phases.length := (List.getElem?_eq_some.mp hp).1
  unfold optimize_phase_timing
  by_cases hlen : phases.length < 2
  · rw [if_pos hlen]
    refine ⟨p, hp, rfl, rfl, rfl, rfl, rfl, rfl, rfl, ?_, ?_, fun _ _ => rfl⟩
    · intro _ hnext
      exfalso
      obtain ⟨nq, hnq, _⟩ := hnext
      have := (List.getElem?_eq_some.mp hnq).1
      omega
    · intro hprev _ _
      exfalso
      obtain ⟨h0, _⟩ := hprev
      omega
  · rw [if_neg hlen]
    rw [mapWithIndex_getElem? (fun k ph => optimizeOne phases k ph) phases 0 i, hp]
    simp only [Option.map_some', Nat.zero_add]
    refine ⟨optimizeOne phases i p, rfl, rfl, rfl, rfl, rfl, rfl, rfl, rfl, ?_, ?_, ?_⟩
    · intro hslow hnext
      obtain ⟨nq, hnq, hnexp⟩ := hnext
      have hi1 : i + 1 < phases.length := (List.getElem?_eq_some.mp hnq).1
      have hlt : i < phases.length - 1 := by omega
      show (optimizeOne phases i p).duration_ms = _
      simp only [optimizeOne]
      rw [if_pos hlt]
      simp only [hnq]
      rw [if_pos ⟨hslow, hnexp⟩]
    · intro hprev hslow hnnext
      obtain ⟨h0, pq, hpq, hpexp⟩ := hprev
      show (optimizeOne phases i p).duration_ms = _
      simp only [optimizeOne]
      by_cases hlt2 : i < phases.length - 1
      · have hi1 : i + 1 < phases.length := by omega
        have hnq : phases[i + 1]? = some (phases[i + 1]) := List.getElem?_eq_getElem hi1
        rw [if_pos hlt2]
        simp only [hnq]
        rw [if_neg (fun hc => hnnext ⟨phases[i + 1], hnq, hc.2⟩), if_pos h0]
        simp only [hpq]
        rw [if_pos ⟨hpexp, hslow⟩]
      · rw [if_neg hlt2, if_pos h0]
        simp only [hpq]
        rw [if_pos ⟨hpexp, hslow⟩]
    · intro hn1 hn2
      show (optimizeOne phases i p).duration_ms = _
      simp only [optimizeOne]
      by_cases h0 : 0 < i
      · have hi0 : i - 1 < phases.length := by omega
        have hpq : phases[i - 1]? = some (phases[i - 1]) := List.getElem?_eq_getElem hi0
        have hc1 : ¬ ((phases[i - 1]).velocity_profile = some "explosive" ∧
            p.velocity_profile = some "slow") :=
          fun hc => hn1 ⟨⟨h0, phases[i - 1], hpq, hc.1⟩, hc.2⟩
        by_cases hlt2 : i < phases.length - 1
        · have hi1 : i + 1 < phases.length := by omega
          have hnq : phases[i + 1]? = some (phases[i + 1]) := List.getElem?_eq_getElem hi1
          have hc2 : ¬ (p.velocity_profile = some "slow" ∧
              (phases[i + 1]).velocity_profile = some "explosive") :=
            fun hc => hn2 ⟨hc.1, phases[i + 1], hnq, hc.2⟩
          rw [if_pos hlt2]
          simp only [hnq]
          rw [if_neg hc2, if_pos h0]
          simp only [hpq]
          rw [if_neg hc1]
        · rw [if_neg hlt2, if_pos h0]
          simp only [hpq]
          rw [if_neg hc1]
      · by_cases hlt2 : i < phases.length - 1
        · have hi1 : i + 1 < phases.length := by omega
          have hnq : phases[i + 1]? = some (phases[i + 1]) := List.getElem?_eq_getElem hi1
          have hc2 : ¬ (p.velocity_profile = some "slow" ∧
              (phases[i + 1]).velocity_profile = some "explosive") :=
            fun hc => hn2 ⟨hc.1, phases[i + 1], hnq, hc.2⟩
          rw [if_pos hlt2]
          simp only [hnq]
          rw [if_neg hc2, if_neg h0]
        · rw [if_neg hlt2, if_neg h0]

/-- Witness for C7 at the three-phase list `[explosive, slow, explosive]`:
the middle phase has both qualifying neighbors and ends at
`int(400 × 0.9) = 360` (not `1.2 × 0.9 × 400`). -/
theorem c7_witness :
    ∃ q, (optimize_phase_timing c7Phases)[1]? = some q ∧ q.duration_ms = 360 := by
  obtain ⟨q, hq, _, _, _, _, _, _, _, h9, _, _⟩ :=
    c7_optimize_phase_timing_spec c7Phases 1 c7Slow rfl
  refine ⟨q, hq, ?_⟩
  rw [h9 rfl ⟨c7Explosive, rfl, rfl⟩]
  simp only [c7Slow]
  exact pyTrunc_eq_of _ 360 (by norm_num) (by norm_num) (by norm_num)

/-- C8: the constructed plan's `total_duration_ms` always equals the exact
sum of its phases' durations, and the construction yields the same plan no
matter which `total_duration_ms` / `complexity_score` values were supplied:
the derived fields are recomputed whenever the phases are set (at
construction) and cannot be set independently. -/
theorem c8_total_duration_derived (skill : String) (phases : List ExecutionPhase)
    (constraints : PhysicalConstraints) (prov : List String)
    (total0 : ℤ) (complexity0 : ℚ) :
    (mkExecutionPlan skill phases constraints prov total0 complexity0).total_duration_ms
      = (phases.map (fun p => p.duration_ms)).sum ∧
    mkExecutionPlan skill phases constraints prov total0 complexity0
      = mkExecutionPlan skill phases constraints prov 0 0 :=
  ⟨rfl, rfl⟩

set_option maxRecDepth 100000 in
/-- C9: the lenient parser first attempts a strict parse of the normalized
text and returns that result when it succeeds; on failure it retries after
removing trailing commas; on failure it retries after converting
single-quoted keys/values; Scenario D's response (valid JSON except one
trailing comma) fails the strict parse but is recovered, so the fallback is
not invoked; a single-quoted response is recovered only by the third
attempt. -/
theorem c9_lenient_parser_chain :
    (∀ t v, jsonLoads (normalize_response t) = some v → parse_lenient_json t = some v) ∧
    (∀ t v, jsonLoads (normalize_response t) = none →
      jsonLoads (remove_trailing_commas (normalize_response t)) = some v →
      parse_lenient_json t = some v) ∧
    ((jsonLoads (normalize_response scenarioD)).isNone = true ∧
      (parse_lenient_json scenarioD).isSome = true ∧ uses_fallback scenarioD = false) ∧
    ((jsonLoads (normalize_response singleQuotedResp)).isNone = true ∧
      (jsonLoads (remove_trailing_commas (normalize_response singleQuotedResp))).isNone
        = true ∧
      (parse_lenient_json singleQuotedResp).isSome = true) := by
  refine ⟨?_, ?_, ⟨by decide, by decide, by decide⟩, ⟨by decide, by decide, by decide⟩⟩

  · intro t v h
    simp only [parse_lenient_json, h]
  · intro t v h1 h2
    simp only [parse_lenient_json, h1, h2]

set_option maxRecDepth 100000 in
/-- Witness for C9: the first-attempt clause applied to a strictly valid
response. -/
theorem c9_witness :
    parse_lenient_json "\x7b\"a\": 1\x7d" = some (JVal.jobj [("a", JVal.jnum 1)]) :=
  c9_lenient_parser_chain.1 "\x7b\"a\": 1\x7d" (JVal.jobj [("a", JVal.jnum 1)]) rfl

/-- C10: a falsy `max_velocity_hint` (0) is replaced by 0.8 before the rate
limit is computed, so the per-step limit is 38 degrees — not the 10 degrees
that a hint of 0 clamped into `[0, 1]` would give. -/
theorem c10_falsy_hint_gives_38 :
    max_delta_of c0Hint = 38 ∧
    pyTrunc (10 + (max 0 (min 1 (0:ℚ))) * 35) = 10 ∧ (38:ℤ) ≠ 10 := by
  refine ⟨?_, ?_, by decide⟩
  · rw [max_delta_of_eval c0Hint (8/10) (by norm_num [c0Hint]) (by norm_num) (by norm_num)]
    exact pyTrunc_eq_of _ 38 (by norm_num) (by norm_num) (by norm_num)
  · rw [min_eq_right (by norm_num : (0:ℚ) ≤ 1), max_self]
    have h : ((10:ℚ) + 0 * 35) = ((10:ℤ):ℚ) := by norm_num
    rw [h]
    exact pyTrunc_eq_of _ 10 (by norm_num) (by norm_num) (by norm_num)

end HTN
